import Mathlib

/-
Verification development for the auto-git-pusher repository
(src/main.py: class Pusher; src/test.py: class GitPusher).

The Python code is shallowly embedded: file sizes are Nat (Python ints,
byte counts are non-negative), paths and command output are lists of
characters / strings, the git subprocess backend is modelled as a trace
of CompletedProcess responses consumed in invocation order, and each
method becomes a pure function threading that backend state.
-/

/- Python's `needle in haystack` substring test, on lists of characters.
`startsWithSeq n h` holds when `n` is an initial segment of `h`. -/
def startsWithSeq : List Char → List Char → Bool
  | [], _ => true
  | _ :: _, [] => false
  | a :: as, b :: bs => a == b && startsWithSeq as bs

/- `containsSeq n h` holds when `n` occurs contiguously inside `h`. -/
def containsSeq (needle : List Char) : List Char → Bool
  | [] => startsWithSeq needle []
  | c :: rest => startsWithSeq needle (c :: rest) || containsSeq needle rest

/- Python `needle in haystack` on strings. -/
def containsStr (haystack needle : String) : Bool :=
  containsSeq needle.toList haystack.toList

theorem startsWithSeq_append (n h q : List Char)
    (hs : startsWithSeq n h = true) : startsWithSeq n (h ++ q) = true := by
  induction n generalizing h with
  | nil => simp [startsWithSeq]
  | cons a as ih =>
    cases h with
    | nil => simp [startsWithSeq] at hs
    | cons b bs =>
      simp only [startsWithSeq, Bool.and_eq_true] at hs
      simp only [List.cons_append, startsWithSeq, Bool.and_eq_true]
      exact ⟨hs.1, ih bs hs.2⟩

theorem startsWithSeq_self (n q : List Char) : startsWithSeq n (n ++ q) = true := by
  induction n with
  | nil => simp [startsWithSeq]
  | cons a as ih => simp [startsWithSeq, ih]

theorem containsSeq_append_right (n p q : List Char)
    (hc : containsSeq n p = true) : containsSeq n (p ++ q) = true := by
  induction p with
  | nil =>
    cases n with
    | nil => cases q with
      | nil => simpa using hc
      | cons c cs => simp [containsSeq, startsWithSeq]
    | cons a as => simp [containsSeq, startsWithSeq] at hc
  | cons c cs ih =>
    simp only [containsSeq, Bool.or_eq_true] at hc
    simp only [List.cons_append, containsSeq, Bool.or_eq_true]
    cases hc with
    | inl hs => exact Or.inl (by simpa using startsWithSeq_append n (c :: cs) q hs)
    | inr hrest => exact Or.inr (ih hrest)

theorem containsSeq_append_left (n p q : List Char)
    (hc : containsSeq n q = true) : containsSeq n (p ++ q) = true := by
  induction p with
  | nil => simpa using hc
  | cons c cs ih =>
    simp only [List.cons_append, containsSeq, Bool.or_eq_true]
    exact Or.inr ih

theorem containsSeq_self (n q : List Char) (hn : n ≠ []) :
    containsSeq n (n ++ q) = true := by
  cases n with
  | nil => exact absurd rfl hn
  | cons a as =>
    simp only [List.cons_append, containsSeq, Bool.or_eq_true]
    exact Or.inl (by simpa using startsWithSeq_self (a :: as) q)

/- The substring test the size scan applies to each visited directory path
(`if '.git' in root` in both Pusher.scan_files and
GitPusher.calculate_folder_size). -/
def containsGit (p : List Char) : Bool := containsSeq ".git".toList p

theorem containsGit_append (p q : List Char) (h : containsGit p = true) :
    containsGit (p ++ q) = true :=
  containsSeq_append_right _ p q h

/-
The directory tree under the watched folder. A node carries its regular
files (name, size in bytes; files whose getsize raised are omitted, the
code treats them as contributing zero) and its named subdirectories.
os.walk visits every directory of the tree; the walk of a node at path p
visits (p, files) and then each subdirectory at path p ++ "/" ++ name.
-/
mutual
inductive FTree where
  | node (files : List (List Char × Nat)) (subdirs : FTrees)
inductive FTrees where
  | nil
  | cons (name : List Char) (t : FTree) (rest : FTrees)
end

def sumSizes (files : List (List Char × Nat)) : Nat :=
  (files.map Prod.snd).sum

/-
GitPusher.calculate_folder_size (src/test.py:180-201), with the walk made
explicit: every directory whose path string contains ".git" is skipped
(`continue` only skips that directory's files; os.walk still descends, and
the descendants' paths keep the substring). Pusher.scan_files
(src/main.py:15-25) performs the same traversal, accumulating into
self.cur_size; its per-visit sum is the same function.
-/
mutual
def calculate_folder_size (p : List Char) : FTree → Nat
  | .node files subdirs =>
      (if containsGit p then 0 else sumSizes files) + calc_subdirs p subdirs
def calc_subdirs (p : List Char) : FTrees → Nat
  | .nil => 0
  | .cons name t rest =>
      calculate_folder_size (p ++ '/' :: name) t + calc_subdirs p rest
end

/- Removes every subdirectory literally named ".git", at every depth. -/
mutual
def prune_git : FTree → FTree
  | .node files subdirs => .node files (prune_subdirs subdirs)
def prune_subdirs : FTrees → FTrees
  | .nil => .nil
  | .cons name t rest =>
      if name = ".git".toList then prune_subdirs rest
      else .cons name (prune_git t) (prune_subdirs rest)
end

mutual
theorem calc_size_zero_of_git (p : List Char) (t : FTree)
    (h : containsGit p = true) : calculate_folder_size p t = 0 := by
  cases t with
  | node files subdirs =>
    have hr := calc_subdirs_zero_of_git p subdirs h
    simp [calculate_folder_size, h, hr]
theorem calc_subdirs_zero_of_git (p : List Char) (ts : FTrees)
    (h : containsGit p = true) : calc_subdirs p ts = 0 := by
  cases ts with
  | nil => rfl
  | cons name t rest =>
    simp only [calc_subdirs]
    rw [calc_size_zero_of_git (p ++ '/' :: name) t (containsGit_append p _ h),
      calc_subdirs_zero_of_git p rest h]
end

mutual
theorem calc_size_prune (p : List Char) (t : FTree) :
    calculate_folder_size p t = calculate_folder_size p (prune_git t) := by
  cases t with
  | node files subdirs =>
    simp only [prune_git, calculate_folder_size]
    rw [calc_subdirs_prune p subdirs]
theorem calc_subdirs_prune (p : List Char) (ts : FTrees) :
    calc_subdirs p ts = calc_subdirs p (prune_subdirs ts) := by
  cases ts with
  | nil => rfl
  | cons name t rest =>
    by_cases hn : name = ".git".toList
    · subst hn
      have hg : containsGit (p ++ '/' :: ".git".toList) = true := by
        have h1 : containsSeq ".git".toList ".git".toList = true := by decide
        have h2 := containsSeq_append_left ".git".toList (p ++ ['/'])
          ".git".toList h1
        have hp : p ++ '/' :: ".git".toList = (p ++ ['/']) ++ ".git".toList := by
          simp
        rw [containsGit, hp]
        exact h2
      have hz : calculate_folder_size (p ++ ['/', '.', 'g', 'i', 't']) t = 0 := by
        simpa using calc_size_zero_of_git (p ++ '/' :: ".git".toList) t hg
      have hr := calc_subdirs_prune p rest
      simp [prune_subdirs, calc_subdirs, hz, hr]
    · simp only [prune_subdirs, if_neg hn, calc_subdirs]
      rw [calc_size_prune (p ++ '/' :: name) t, calc_subdirs_prune p rest]
end

/-
The result of one git subprocess invocation, mirroring the fields of
subprocess.CompletedProcess that the code reads.
-/
structure CompletedProcess where
  args : List String
  returncode : Int
  stdout : String
  stderr : String
deriving DecidableEq

/-
GitPusher.run_git_command (src/test.py:56-85). Spawning the subprocess may
raise; the spawn attempt is modelled as an Except value. On an exception e
the method builds a stand-in CompletedProcess with returncode 1, empty
stdout and str(e) as stderr, so the method always returns a plain value.
-/
def run_git_command (cmd : List String)
    (spawn : List String → Except String CompletedProcess) : CompletedProcess :=
  match spawn ("git" :: cmd) with
  | .ok r => r
  | .error e =>
      { args := "git" :: cmd, returncode := 1, stdout := "", stderr := e }

/-
Backend trace used by the higher-level GitPusher methods: the responses the
successive run_git_command invocations return (run_git_command always
returns a CompletedProcess, see above), consumed in order, plus the record
of git-level commands issued so far. When the trace is exhausted a default
failing response is returned (the theorems below never rely on it).
-/
structure BackendState where
  responses : List CompletedProcess
  issued : List (List String)
deriving DecidableEq

def runGit (cmd : List String) (s : BackendState) :
    CompletedProcess × BackendState :=
  match s.responses with
  | [] => ({ args := "git" :: cmd, returncode := 1, stdout := "", stderr := "" },
      { s with issued := s.issued ++ [cmd] })
  | r :: rest => (r, { responses := rest, issued := s.issued ++ [cmd] })

/- Python str.strip(): drop whitespace from both ends. -/
def pyStrip (s : String) : String :=
  String.mk (((s.toList.dropWhile Char.isWhitespace).reverse.dropWhile
    Char.isWhitespace).reverse)

/- GitPusher.get_current_branch (src/test.py:92-96). -/
def get_current_branch (s : BackendState) : String × BackendState :=
  let r := runGit ["branch", "--show-current"] s
  let branch := pyStrip r.1.stdout
  (if branch = "" then "main" else branch, r.2)

/- GitPusher.has_remote_configured (src/test.py:98-101). -/
def has_remote_configured (s : BackendState) : Bool × BackendState :=
  let r := runGit ["remote", "-v"] s
  (!(pyStrip r.1.stdout == ""), r.2)

/- GitPusher.stage_files (src/test.py:221-232). -/
def stage_files (file_pattern : String) (s : BackendState) :
    Bool × BackendState :=
  let r := runGit ["add", file_pattern] s
  (r.1.returncode == 0, r.2)

/-
GitPusher.commit_changes (src/test.py:234-252). A None message argument is
modelled as ""; Python's `message or self.default_commit_msg` treats both
alike. If stdout++stderr contains "nothing to commit" or "no changes added
to commit" the method returns False.
-/
def commit_changes (message default_commit_msg : String) (s : BackendState) :
    Bool × BackendState :=
  let msg := if message = "" then default_commit_msg else message
  let r := runGit ["commit", "-m", msg] s
  let output := r.1.stdout ++ r.1.stderr
  if containsStr output "nothing to commit" = true
      ∨ containsStr output "no changes added to commit" = true then
    (false, r.2)
  else
    (r.1.returncode == 0, r.2)

/- The push command GitPusher.push_to_remote builds (src/test.py:271-276). -/
def pushCmd (branch : String) (force set_upstream : Bool) : List String :=
  ["push", "origin", branch] ++ (if force then ["--force"] else [])
    ++ (if set_upstream then ["-u"] else [])

/-
GitPusher.push_to_remote (src/test.py:254-285). A None/empty branch argument
falls back to get_current_branch (Python `branch or ...`). After the first
push, exactly one recovery exists: when the push failed and its stderr
contains "no upstream branch", the push is reissued once with -u.
-/
def push_to_remote (branchArg : String) (force set_upstream : Bool)
    (s : BackendState) : Bool × BackendState :=
  let br := if branchArg = "" then get_current_branch s else (branchArg, s)
  let branch := br.1
  let r := runGit (pushCmd branch force set_upstream) br.2
  if r.1.returncode ≠ 0 ∧ containsStr r.1.stderr "no upstream branch" = true then
    let r2 := runGit ["push", "-u", "origin", branch] r.2
    (r2.1.returncode == 0, r2.2)
  else
    (r.1.returncode == 0, r.2)

/-
GitPusher.push_files (src/test.py:287-338) with the default callbacks
(None): stage, commit, then push_to_remote(branch, force, True); the first
failing step makes the whole flow return False.
-/
def push_files (commit_message branch : String) (force : Bool)
    (default_commit_msg : String) (s : BackendState) : Bool × BackendState :=
  let st := stage_files "." s
  if st.1 = false then (false, st.2)
  else
    let co := commit_changes commit_message default_commit_msg st.2
    if co.1 = false then (false, co.2)
    else push_to_remote branch force true co.2

/-
GitPusher.setup_repository (src/test.py:132-176), split at the point after
the init step. is_repo models os.path.exists(folder/.git). A None
repo_url/username/email argument is modelled as "".
-/
def setup_after_init (repo_url username email : String) (s : BackendState) :
    Bool × BackendState :=
  let s1 := if username ≠ "" ∧ email ≠ "" then
      (runGit ["config", "user.email", email]
        (runGit ["config", "user.name", username] s).2).2
    else s
  if repo_url ≠ "" then
    let hr := has_remote_configured s1
    if hr.1 = false then
      let ar := runGit ["remote", "add", "origin", repo_url] hr.2
      if ar.1.returncode ≠ 0 then (false, ar.2) else (true, ar.2)
    else
      (true, (runGit ["remote", "set-url", "origin", repo_url] hr.2).2)
  else (true, s1)

def setup_repository (repo_url_arg self_repo_url username email : String)
    (is_repo : Bool) (s : BackendState) : Bool × BackendState :=
  let repo_url := if repo_url_arg = "" then self_repo_url else repo_url_arg
  if is_repo then setup_after_init repo_url username email s
  else
    let ir := runGit ["init"] s
    if ir.1.returncode ≠ 0 then (false, ir.2)
    else setup_after_init repo_url username email ir.2

/- |current - baseline| on byte counts, Python abs(cur - total). -/
def absDiff (a b : Nat) : Nat := ((a : Int) - (b : Int)).natAbs

/-
GitPusher's size-tracking attributes: total_size is the baseline, current
size the last measurement (src/test.py:42-43, both start at 0).
-/
structure GPState where
  total_size : Nat
  current_size : Nat
deriving DecidableEq

/-
GitPusher.check_size_changes (src/test.py:203-217). The measured value of
calculate_folder_size is passed in. A zero baseline is the first-measurement
sentinel: it is overwritten with the measurement and False is returned.
Otherwise the method returns size_diff >= change_threshold_bytes.
-/
def check_size_changes (measured threshold : Nat) (st : GPState) :
    Bool × GPState :=
  let st1 : GPState := { st with current_size := measured }
  if st1.total_size = 0 then
    (false, { st1 with total_size := st1.current_size })
  else
    (decide (absDiff st1.current_size st1.total_size ≥ threshold), st1)

/-
One iteration of GitPusher._monitoring_loop (src/test.py:351-364):
check_size_changes, and when it reports a change, push_files() with all
defaults; only on success is total_size set to current_size. The third
component records the publish outcome: none when no publish was attempted.
-/
def monitor_step (measured threshold : Nat) (default_commit_msg : String)
    (st : GPState) (s : BackendState) :
    GPState × BackendState × Option Bool :=
  let ck := check_size_changes measured threshold st
  if ck.1 = true then
    let pf := push_files "" "" false default_commit_msg s
    if pf.1 = true then
      ({ ck.2 with total_size := ck.2.current_size }, pf.2, some true)
    else
      (ck.2, pf.2, some false)
  else
    (ck.2, s, none)

/-
main.py's Pusher attributes: total_size and cur_size both start at 0
(src/main.py:9-10); change_threshold_kb defaults to 10 (src/main.py:11).
-/
structure PusherState where
  total_size : Nat
  cur_size : Nat
deriving DecidableEq

/-
Pusher.scan_files (src/main.py:15-25): walks the tree exactly as
calculate_folder_size does but accumulates into self.cur_size, which is
never reset; the method returns the updated cur_size.
-/
def scan_files (p : List Char) (t : FTree) (st : PusherState) :
    Nat × PusherState :=
  let newCur := st.cur_size + calculate_folder_size p t
  (newCur, { st with cur_size := newCur })

/- Pusher.differ_checker (src/main.py:27-28): abs(cur - total) > threshold. -/
def differ_checker (threshold : Nat) (st : PusherState) : Bool :=
  decide (absDiff st.cur_size st.total_size > threshold)

/-
One iteration of Pusher.polling_check (src/main.py:31-36): scan_files, then
differ_checker decides whether push() runs. Neither the loop nor push()
ever writes total_size or cur_size, so the state after the iteration is
exactly the post-scan state; the Bool records whether a push was triggered.
-/
def polling_step (p : List Char) (t : FTree) (threshold : Nat)
    (st : PusherState) : Bool × PusherState :=
  let sc := scan_files p t st
  (differ_checker threshold sc.2, sc.2)

/- k successive calls of Pusher.scan_files on an unchanged tree. -/
def scan_iter (p : List Char) (t : FTree) : Nat → PusherState → PusherState
  | 0, st => st
  | k + 1, st => scan_iter p t k (scan_files p t st).2

/-
Pusher.setup_gitrepo (src/main.py:38-49). git_path_exists models
os.path.exists("git") (note: the code tests "git", not ".git"). The Python
function returns True, or falls through returning None; the Option is none
exactly on those implicit-None paths. With no remote in `git remote -v`
output and an empty repo_url it returns None without issuing any further
command; even when a remote is added, the stale empty stdout makes the
final `if result.stdout.strip()` fail and the function still returns None.
-/
def setup_gitrepo (repo_url : String) (git_path_exists : Bool)
    (s : BackendState) : Option Bool × BackendState :=
  let s0 := if git_path_exists = false then (runGit ["init"] s).2 else s
  let r := runGit ["remote", "-v"] s0
  if pyStrip r.1.stdout = "" then
    if repo_url ≠ "" then
      let ar := runGit ["remote", "add", "origin", repo_url] r.2
      if pyStrip r.1.stdout ≠ "" then (some true, ar.2) else (none, ar.2)
    else (none, r.2)
  else (some true, r.2)

theorem scan_iter_cur_size (p : List Char) (t : FTree) (k : Nat)
    (st : PusherState) :
    (scan_iter p t k st).cur_size
      = st.cur_size + k * calculate_folder_size p t := by
  induction k generalizing st with
  | zero => simp [scan_iter]
  | succ k ih =>
    rw [scan_iter, ih]
    simp [scan_files, Nat.succ_mul]
    ring

/-- Claim C8: the size measurement skips every directory whose path contains
the version-control metadata directory name, at any nesting depth: on a path
already containing ".git" the whole measurement is zero, and removing every
".git"-named subtree from the tree leaves the measured snapshot unchanged,
i.e. files under a version-control metadata subtree contribute zero bytes. -/
theorem c8_git_subtree_contributes_zero (p : List Char) (t : FTree) :
    (containsGit p = true → calculate_folder_size p t = 0)
    ∧ calculate_folder_size p t = calculate_folder_size p (prune_git t) :=
  ⟨fun h => calc_size_zero_of_git p t h, calc_size_prune p t⟩

theorem c8_witness :
    calculate_folder_size "./.git".toList
      (FTree.node [("a".toList, 5)] FTrees.nil) = 0 :=
  (c8_git_subtree_contributes_zero "./.git".toList
    (FTree.node [("a".toList, 5)] FTrees.nil)).1 (by decide)

/-- Claim C9: Pusher.scan_files (main.py) accumulates into self.cur_size
without resetting it, so on an unchanged tree of total size S the k-th call
returns k times S: the snapshot is not a pure function of the directory
contents but grows with each call. Stated for the (k+1)-st call from a fresh
cur_size of 0, covering every call index k+1 greater than or equal to 1. -/
theorem c9_scan_files_accumulates (p : List Char) (t : FTree) (k tot : Nat) :
    (scan_files p t (scan_iter p t k ⟨tot, 0⟩)).1
      = (k + 1) * calculate_folder_size p t := by
  rw [scan_files]
  simp [scan_iter_cur_size, Nat.succ_mul]

/-- Claim C10: GitPusher.run_git_command is total over spawn failures: when
launching the git subprocess raises an exception e, the method returns a
CompletedProcess with returncode 1, empty stdout and the exception text as
stderr; the embedding returns a plain value on every path, so no caller
observes a raised exception. -/
theorem c10_run_git_command_total (cmd : List String)
    (spawn : List String → Except String CompletedProcess) (e : String)
    (h : spawn ("git" :: cmd) = Except.error e) :
    run_git_command cmd spawn
      = { args := "git" :: cmd, returncode := 1, stdout := "", stderr := e } := by
  simp [run_git_command, h]

theorem c10_witness :
    run_git_command ["status"] (fun _ => Except.error "spawn failed")
      = { args := ["git", "status"], returncode := 1, stdout := "",
          stderr := "spawn failed" } :=
  c10_run_git_command_total ["status"] (fun _ => Except.error "spawn failed")
    "spawn failed" rfl

/-- Claim C6: when a push fails and its stderr carries the "no upstream
branch" signature, push_to_remote reissues the push with the
upstream-setting flag exactly once — the issued command trace grows by
precisely the original push and one "push -u origin branch" — and the final
outcome reported is that single retry's. -/
theorem c6_no_upstream_retry_once (branch : String) (force set_up : Bool)
    (r1 r2 : CompletedProcess) (rest : List CompletedProcess)
    (issued0 : List (List String)) (hb : branch ≠ "")
    (h1 : r1.returncode ≠ 0)
    (h2 : containsStr r1.stderr "no upstream branch" = true) :
    (push_to_remote branch force set_up ⟨r1 :: r2 :: rest, issued0⟩).2.issued
      = issued0 ++ [pushCmd branch force set_up, ["push", "-u", "origin", branch]]
    ∧ (push_to_remote branch force set_up ⟨r1 :: r2 :: rest, issued0⟩).1
      = (r2.returncode == 0) := by
  rw [push_to_remote, if_neg hb]
  simp only [runGit]
  rw [if_pos ⟨h1, h2⟩]
  simp [runGit]

theorem c6_witness :
    (push_to_remote "main" false false
        ⟨[⟨["git", "push", "origin", "main"], 1, "",
            "fatal: The current branch main has no upstream branch."⟩,
          ⟨["git", "push", "-u", "origin", "main"], 0, "", ""⟩], []⟩).2.issued
      = [] ++ [pushCmd "main" false false, ["push", "-u", "origin", "main"]]
    ∧ (push_to_remote "main" false false
        ⟨[⟨["git", "push", "origin", "main"], 1, "",
            "fatal: The current branch main has no upstream branch."⟩,
          ⟨["git", "push", "-u", "origin", "main"], 0, "", ""⟩], []⟩).1
      = true :=
  c6_no_upstream_retry_once "main" false false
    ⟨["git", "push", "origin", "main"], 1, "",
      "fatal: The current branch main has no upstream branch."⟩
    ⟨["git", "push", "-u", "origin", "main"], 0, "", ""⟩ [] []
    (by decide) (by decide) (by decide)

/-- Claim C4: in every cycle whose publish attempt fails, the scheduler
leaves the baseline untouched: when one GitPusher._monitoring_loop iteration
records a failed publish, total_size after the iteration equals total_size
before it, so the next cycle's delta is computed against the pre-failure
baseline; main.py's polling_check never writes total_size at all. -/
theorem c4_failed_publish_keeps_baseline (measured threshold : Nat)
    (msg : String) (st : GPState) (s : BackendState)
    (h : (monitor_step measured threshold msg st s).2.2 = some false) :
    (monitor_step measured threshold msg st s).1.total_size = st.total_size
    ∧ ∀ (p : List Char) (t : FTree) (thr : Nat) (st2 : PusherState),
        (polling_step p t thr st2).2.total_size = st2.total_size := by
  refine ⟨?_, fun p t thr st2 => by simp [polling_step, scan_files]⟩
  by_cases h0 : st.total_size = 0
  · exfalso
    simp [monitor_step, check_size_changes, h0] at h
  · by_cases htr : absDiff measured st.total_size ≥ threshold
    · by_cases hpf : (push_files "" "" false msg s).1 = true
      · exfalso
        simp [monitor_step, check_size_changes, h0, htr, hpf] at h
      · simp [monitor_step, check_size_changes, h0, htr, hpf]
    · exfalso
      simp [monitor_step, check_size_changes, h0, htr] at h

theorem c4_witness :
    (monitor_step 100000 10240 "m" ⟨50, 0⟩ ⟨[], []⟩).1.total_size = 50 :=
  (c4_failed_publish_keeps_baseline 100000 10240 "m" ⟨50, 0⟩ ⟨[], []⟩
    (by decide)).1

/-- Claim C1 counterexample: the claim says the trigger predicate is false
for every delta d with d less than or equal to the threshold. With the
default 10 KB threshold (10240 bytes), baseline 100 and current 10340 the
delta is exactly 10240, not above the threshold, yet
GitPusher.check_size_changes returns true — the code compares with greater
or equal, not strictly greater. -/
theorem c1_counterexample :
    absDiff 10340 100 = 10240 ∧ (10240 : Nat) ≤ 10240
    ∧ (check_size_changes 10340 10240 ⟨100, 0⟩).1 = true := by
  decide

/-- Claim C1 (amended): both detectors compute the absolute difference
between current and baseline, but with different comparisons:
GitPusher.check_size_changes (past its first-measurement sentinel) returns
true exactly when the delta is greater than or equal to the threshold in
bytes — it fires at exactly the threshold too — while main.py's
Pusher.differ_checker returns true exactly when the delta strictly exceeds
its threshold field. -/
theorem c1_threshold_comparison (base cur thr x : Nat) (h0 : base ≠ 0) :
    ((check_size_changes cur thr ⟨base, x⟩).1 = true ↔ absDiff cur base ≥ thr)
    ∧ (differ_checker thr ⟨base, cur⟩ = true ↔ absDiff cur base > thr) := by
  constructor
  · simp [check_size_changes, h0]
  · simp [differ_checker]

theorem c1_witness :
    (check_size_changes 10340 10240 ⟨100, 0⟩).1 = true
    ∧ ¬ differ_checker 10240 ⟨100, 10340⟩ = true :=
  ⟨(c1_threshold_comparison 100 10340 10240 0 (by decide)).1.mpr (by decide),
    fun hcl => absurd
      ((c1_threshold_comparison 100 10340 10240 0 (by decide)).2.mp hcl)
      (by decide)⟩

/-- Claim C2 counterexample: the claim says the first-ever measurement never
triggers a publish and sets the baseline to that measurement. In main.py's
Pusher there is no zero-baseline sentinel: on a fresh state (total_size = 0,
cur_size = 0), the first polling iteration over an 11-byte tree with the
default threshold of 10 triggers a push, the measurement returned is 11, and
total_size is left at 0, not set to 11. -/
theorem c2_counterexample :
    (polling_step ".".toList (FTree.node [("a".toList, 11)] FTrees.nil)
        10 ⟨0, 0⟩).1 = true
    ∧ (polling_step ".".toList (FTree.node [("a".toList, 11)] FTrees.nil)
        10 ⟨0, 0⟩).2.total_size = 0
    ∧ (scan_files ".".toList (FTree.node [("a".toList, 11)] FTrees.nil)
        ⟨0, 0⟩).1 = 11 := by
  decide

/-- Claim C2 (amended): only test.py honors the zero-baseline sentinel. On a
first measurement GitPusher.check_size_changes returns false regardless of
the measured size and sets total_size to that measurement; main.py's Pusher
has no sentinel: from a fresh state, the first polling iteration triggers a
push whenever the measured tree size exceeds its threshold, and total_size
is never initialized from the measurement. -/
theorem c2_first_measurement (measured thr cur0 : Nat) (p : List Char)
    (t : FTree) (thr2 : Nat) (hgt : calculate_folder_size p t > thr2) :
    check_size_changes measured thr ⟨0, cur0⟩ = (false, ⟨measured, measured⟩)
    ∧ polling_step p t thr2 ⟨0, 0⟩
        = (true, ⟨0, calculate_folder_size p t⟩) := by
  constructor
  · simp [check_size_changes]
  · simp [polling_step, scan_files, differ_checker, absDiff, hgt]

theorem c2_witness :
    check_size_changes 7 10240 ⟨0, 0⟩ = (false, ⟨7, 7⟩)
    ∧ polling_step ".".toList (FTree.node [("b".toList, 99)] FTrees.nil)
        10 ⟨0, 0⟩
      = (true, ⟨0, calculate_folder_size ".".toList
          (FTree.node [("b".toList, 99)] FTrees.nil)⟩) :=
  c2_first_measurement 7 10240 0 ".".toList
    (FTree.node [("b".toList, 99)] FTrees.nil) 10 (by decide)

/-- Claim C5 counterexample: the claim says a non-fast-forward push rejection
makes the publisher pull with rebase and retry the plain push once, with
SyncConflict if the pull fails. In the code, when the push fails with a
non-fast-forward rejection (stderr without the "no upstream branch"
signature), the complete issued command trace is the single original push —
no pull, no rebase, no retry is ever issued and no SyncConflict outcome
exists — and push_to_remote simply returns false. -/
theorem c5_counterexample :
    push_to_remote "main" false false
      ⟨[⟨["git", "push", "origin", "main"], 1, "",
          "error: failed to push some refs (non-fast-forward)"⟩], []⟩
      = (false, ⟨[], [["push", "origin", "main"]]⟩) := by
  decide

/-- Claim C5 (amended): on any push failure whose stderr does not carry the
"no upstream branch" signature — non-fast-forward rejections included —
push_to_remote issues no further backend command (the trace grows by exactly
the one push command; in particular no pull with rebase and no retry) and
returns false; and the push command built without the force flag contains no
"--force", so no forced push is issued automatically. -/
theorem c5_non_fast_forward_no_recovery (branch : String)
    (force set_up : Bool) (r1 : CompletedProcess)
    (rest : List CompletedProcess) (issued0 : List (List String))
    (hb : branch ≠ "") (h1 : r1.returncode ≠ 0)
    (h2 : containsStr r1.stderr "no upstream branch" = false) :
    (push_to_remote branch force set_up ⟨r1 :: rest, issued0⟩).2.issued
      = issued0 ++ [pushCmd branch force set_up]
    ∧ (push_to_remote branch force set_up ⟨r1 :: rest, issued0⟩).1 = false
    ∧ pushCmd branch false set_up
        = ["push", "origin", branch] ++ (if set_up then ["-u"] else []) := by
  rw [push_to_remote, if_neg hb]
  simp only [runGit]
  rw [if_neg (by simp [h2])]
  simp [runGit, pushCmd, h1]

theorem c5_witness :
    (push_to_remote "dev" false false
        ⟨[⟨["git", "push", "origin", "dev"], 1, "", "rejected"⟩], []⟩).2.issued
      = [] ++ [pushCmd "dev" false false]
    ∧ (push_to_remote "dev" false false
        ⟨[⟨["git", "push", "origin", "dev"], 1, "", "rejected"⟩], []⟩).1 = false
    ∧ pushCmd "dev" false false
        = ["push", "origin", "dev"] ++ (if false then ["-u"] else []) :=
  c5_non_fast_forward_no_recovery "dev" false false
    ⟨["git", "push", "origin", "dev"], 1, "", "rejected"⟩ [] []
    (by decide) (by decide) (by decide)

/-- Claim C7 counterexample: the claim says that with no remote configured
and no remote URL supplied, setup fails with NoRemoteConfigured. In test.py,
GitPusher.setup_repository called with no URL anywhere (arguments and
attribute all empty) on an already-initialized repository returns True —
success — without issuing a single backend command: it never even queries
the remotes, and no NoRemoteConfigured outcome exists in the code. -/
theorem c7_counterexample :
    setup_repository "" "" "" "" true ⟨[], []⟩ = (true, ⟨[], []⟩) := by
  decide

/-- Claim C7 (amended): with no remote URL supplied, test.py's
setup_repository skips remote configuration entirely and reports success
(True) whatever the backend state, so the missing-remote condition is never
surfaced; main.py's setup_gitrepo, when `git remote -v` prints nothing and
no URL is configured, returns the implicit falsy None after that single
query, without any retry. Neither produces a NoRemoteConfigured error. -/
theorem c7_no_remote_no_url (s : BackendState) (r : CompletedProcess)
    (rest : List CompletedProcess) (issued : List (List String))
    (hr : pyStrip r.stdout = "") :
    setup_repository "" "" "" "" true s = (true, s)
    ∧ setup_gitrepo "" true ⟨r :: rest, issued⟩
        = (none, ⟨rest, issued ++ [["remote", "-v"]]⟩) := by
  constructor
  · simp [setup_repository, setup_after_init]
  · simp [setup_gitrepo, runGit, hr]

theorem c7_witness :
    setup_repository "" "" "" "" true ⟨[⟨["git", "remote", "-v"], 0, "", ""⟩], []⟩
      = (true, ⟨[⟨["git", "remote", "-v"], 0, "", ""⟩], []⟩)
    ∧ setup_gitrepo "" true ⟨[⟨["git", "remote", "-v"], 0, "", ""⟩], []⟩
        = (none, ⟨[], [["remote", "-v"]]⟩) :=
  c7_no_remote_no_url ⟨[⟨["git", "remote", "-v"], 0, "", ""⟩], []⟩
    ⟨["git", "remote", "-v"], 0, "", ""⟩ [] [] (by decide)

/-- Claim C3 counterexample: the claim says a "nothing to commit" report
yields the non-error outcome NothingToCommit and the scheduler updates the
baseline to the just-measured snapshot exactly as on Success. In the code,
with baseline 50 and a triggering measurement of 100000, a commit whose
output contains "nothing to commit" makes push_files report failure, the
iteration records a failed publish, and total_size stays 50 instead of
becoming 100000. -/
theorem c3_counterexample :
    (monitor_step 100000 10240 "m" ⟨50, 0⟩
        ⟨[⟨["git", "add", "."], 0, "", ""⟩,
          ⟨["git", "commit", "-m", "m"], 1,
            "nothing to commit, working tree clean", ""⟩], []⟩).1.total_size = 50
    ∧ (monitor_step 100000 10240 "m" ⟨50, 0⟩
        ⟨[⟨["git", "add", "."], 0, "", ""⟩,
          ⟨["git", "commit", "-m", "m"], 1,
            "nothing to commit, working tree clean", ""⟩], []⟩).2.2
      = some false := by
  decide

/-- Claim C3 (amended): when the commit step's output contains "nothing to
commit", commit_changes returns False, so push_files reports the whole
publish as failed, and the monitoring iteration takes the failure path: the
baseline total_size is left unchanged — the nothing-to-commit case is
treated like a failure, not like Success, and no separate NothingToCommit
outcome exists. -/
theorem c3_nothing_to_commit_is_failure (st : GPState)
    (measured threshold : Nat) (msg : String) (r1 r2 : CompletedProcess)
    (rest : List CompletedProcess) (issued : List (List String))
    (h0 : st.total_size ≠ 0)
    (htr : absDiff measured st.total_size ≥ threshold)
    (h1 : r1.returncode = 0)
    (h2 : containsStr (r2.stdout ++ r2.stderr) "nothing to commit" = true) :
    (push_files "" "" false msg ⟨r1 :: r2 :: rest, issued⟩).1 = false
    ∧ (monitor_step measured threshold msg st
        ⟨r1 :: r2 :: rest, issued⟩).1.total_size = st.total_size
    ∧ (monitor_step measured threshold msg st
        ⟨r1 :: r2 :: rest, issued⟩).2.2 = some false := by
  have hpf : (push_files "" "" false msg ⟨r1 :: r2 :: rest, issued⟩).1
      = false := by
    simp [push_files, stage_files, commit_changes, runGit, h1, h2]
  refine ⟨hpf, ?_, ?_⟩ <;>
    simp [monitor_step, check_size_changes, h0, htr, hpf]

theorem c3_witness :
    (push_files "" "" false "m"
        ⟨[⟨["git", "add", "."], 0, "", ""⟩,
          ⟨["git", "commit", "-m", "m"], 1,
            "nothing to commit, working tree clean", ""⟩], []⟩).1 = false
    ∧ (monitor_step 100000 10240 "m" ⟨50, 0⟩
        ⟨[⟨["git", "add", "."], 0, "", ""⟩,
          ⟨["git", "commit", "-m", "m"], 1,
            "nothing to commit, working tree clean", ""⟩], []⟩).1.total_size
      = (⟨50, 0⟩ : GPState).total_size
    ∧ (monitor_step 100000 10240 "m" ⟨50, 0⟩
        ⟨[⟨["git", "add", "."], 0, "", ""⟩,
          ⟨["git", "commit", "-m", "m"], 1,
            "nothing to commit, working tree clean", ""⟩], []⟩).2.2
      = some false :=
  c3_nothing_to_commit_is_failure ⟨50, 0⟩ 100000 10240 "m"
    ⟨["git", "add", "."], 0, "", ""⟩
    ⟨["git", "commit", "-m", "m"], 1,
      "nothing to commit, working tree clean", ""⟩ [] []
    (by decide) (by decide) rfl (by decide)
